import Mathlib

/-!
Verification of the holographic-grating script `program.py`.

The script computes a two-beam interference intensity field and derived
grating parameters (spatial frequencies and periods, tilt angle, Bragg
angle) for two media, then renders plots and a table.

Modelling conventions, justified from the source:
* Python/NumPy floating-point values are idealised as exact reals extended
  with signed infinity and NaN (`PyFloat`).  Rounding is ignored; the
  special values follow IEEE-754 semantics, which `numpy.float64`
  arithmetic obeys (it emits a `RuntimeWarning` instead of raising).
* A division of two plain Python floats raises `ZeroDivisionError` when the
  divisor is zero; this happens at `2 * np.pi / wavelength` in
  `calculate_intensity` and at `n_1 / n_2` in
  `calculate_grating_parameters`.  Those functions are therefore embedded
  with an `Option` result, `none` marking the raised exception.  All other
  divisions in the script have a `numpy.float64` operand and follow IEEE
  semantics (inf/NaN results, no exception).
* `np.arcsin` applied to a `numpy.float64` scalar outside `[-1, 1]`
  returns NaN with a `RuntimeWarning`; it does not raise `ValueError`.
-/

noncomputable section

open Classical

/-- Idealised Python/NumPy double: an exact real, a signed infinity
(`inf true` is `+inf`, `inf false` is `-inf`), or NaN. -/
inductive PyFloat where
  | fin : ℝ → PyFloat
  | inf : Bool → PyFloat
  | nan : PyFloat
deriving DecidableEq

namespace PyFloat

/-- IEEE negation. -/
def pneg : PyFloat → PyFloat
  | .fin x => .fin (-x)
  | .inf s => .inf (!s)
  | .nan => .nan

/-- IEEE addition: NaN is absorbing, opposite infinities give NaN. -/
def padd : PyFloat → PyFloat → PyFloat
  | .nan, _ => .nan
  | _, .nan => .nan
  | .fin x, .fin y => .fin (x + y)
  | .fin _, .inf s => .inf s
  | .inf s, .fin _ => .inf s
  | .inf s, .inf t => if s = t then .inf s else .nan

/-- IEEE subtraction. -/
def psub (a b : PyFloat) : PyFloat := padd a (pneg b)

/-- IEEE multiplication: NaN absorbing, zero times infinity is NaN,
signs combine. -/
def pmul : PyFloat → PyFloat → PyFloat
  | .nan, _ => .nan
  | _, .nan => .nan
  | .fin x, .fin y => .fin (x * y)
  | .fin x, .inf s => if 0 < x then .inf s else if x < 0 then .inf (!s) else .nan
  | .inf s, .fin y => if 0 < y then .inf s else if y < 0 then .inf (!s) else .nan
  | .inf s, .inf t => .inf (s == t)

/-- IEEE division.  A nonzero finite value divided by (unsigned, hence
positive) zero gives a signed infinity; zero over zero and inf over inf
give NaN; a finite value over infinity gives zero. -/
def pdiv : PyFloat → PyFloat → PyFloat
  | .nan, _ => .nan
  | _, .nan => .nan
  | .fin a, .fin b =>
      if b = 0 then (if a = 0 then .nan else if 0 < a then .inf true else .inf false)
      else .fin (a / b)
  | .fin _, .inf _ => .fin 0
  | .inf s, .fin b => if 0 ≤ b then .inf s else .inf (!s)
  | .inf _, .inf _ => .nan

/-- `np.sqrt`: NaN for negative finite input and for `-inf`. -/
def psqrt : PyFloat → PyFloat
  | .fin x => if 0 ≤ x then .fin (Real.sqrt x) else .nan
  | .inf true => .inf true
  | .inf false => .nan
  | .nan => .nan

/-- `np.sin`: NaN on infinities and NaN. -/
def psin : PyFloat → PyFloat
  | .fin x => .fin (Real.sin x)
  | _ => .nan

/-- `np.cos`: NaN on infinities and NaN. -/
def pcos : PyFloat → PyFloat
  | .fin x => .fin (Real.cos x)
  | _ => .nan

/-- `np.arcsin`: NaN outside `[-1, 1]` (a `RuntimeWarning` is emitted, no
exception is raised), NaN on infinities and NaN. -/
def parcsin : PyFloat → PyFloat
  | .fin x => if |x| ≤ 1 then .fin (Real.arcsin x) else .nan
  | _ => .nan

/-- `np.abs`. -/
def pabs : PyFloat → PyFloat
  | .fin x => .fin |x|
  | .inf _ => .inf true
  | .nan => .nan

/-- `np.rad2deg` / `np.degrees`: multiplication by `180 / pi`, preserving
infinities. -/
def prad2deg : PyFloat → PyFloat
  | .fin x => .fin (x * (180 / Real.pi))
  | .inf s => .inf s
  | .nan => .nan

/-- `np.deg2rad` on a NumPy scalar: multiplication by `pi / 180`,
preserving infinities. -/
def pdeg2rad : PyFloat → PyFloat
  | .fin x => .fin (x * (Real.pi / 180))
  | .inf s => .inf s
  | .nan => .nan

/-- The Python comparison `v != 0` (NaN compares unequal to zero,
infinities are nonzero). -/
def pyNeZero : PyFloat → Prop
  | .fin x => x ≠ 0
  | _ => True

/-- A value that is not negative: a nonnegative finite value, `+inf`, or
NaN (which is neither positive nor negative).  Exactly the possible
outputs of `pabs`. -/
def notNeg : PyFloat → Prop
  | .fin x => 0 ≤ x
  | .inf s => s = true
  | .nan => True

@[simp] lemma pneg_fin (x : ℝ) : pneg (.fin x) = .fin (-x) := rfl

@[simp] lemma padd_fin_fin (x y : ℝ) : padd (.fin x) (.fin y) = .fin (x + y) := rfl

@[simp] lemma psub_fin_fin (x y : ℝ) : psub (.fin x) (.fin y) = .fin (x - y) := by
  simp [psub, padd, pneg, sub_eq_add_neg]

@[simp] lemma pmul_fin_fin (x y : ℝ) : pmul (.fin x) (.fin y) = .fin (x * y) := rfl

@[simp] lemma padd_nan_left (v : PyFloat) : padd .nan v = .nan := by
  cases v <;> rfl

@[simp] lemma pmul_nan_left (v : PyFloat) : pmul .nan v = .nan := by
  cases v <;> rfl

@[simp] lemma pmul_nan_right (v : PyFloat) : pmul v .nan = .nan := by
  cases v <;> rfl

lemma pdiv_fin_fin (x y : ℝ) (h : y ≠ 0) : pdiv (.fin x) (.fin y) = .fin (x / y) := by
  simp [pdiv, h]

lemma pdiv_fin_zero_pos (x : ℝ) (h : 0 < x) : pdiv (.fin x) (.fin 0) = .inf true := by
  simp [pdiv, h, h.ne.symm]

@[simp] lemma pdiv_fin_inf (x : ℝ) (s : Bool) : pdiv (.fin x) (.inf s) = .fin 0 := rfl

@[simp] lemma pdiv_fin_nan (x : ℝ) : pdiv (.fin x) .nan = .nan := rfl

@[simp] lemma psin_fin (x : ℝ) : psin (.fin x) = .fin (Real.sin x) := rfl

@[simp] lemma pcos_fin (x : ℝ) : pcos (.fin x) = .fin (Real.cos x) := rfl

@[simp] lemma psin_nan : psin .nan = .nan := rfl

@[simp] lemma pcos_nan : pcos .nan = .nan := rfl

lemma psqrt_fin (x : ℝ) (h : 0 ≤ x) : psqrt (.fin x) = .fin (Real.sqrt x) := by
  simp [psqrt, h]

lemma parcsin_fin_of_mem (x : ℝ) (h : |x| ≤ 1) :
    parcsin (.fin x) = .fin (Real.arcsin x) := by
  simp [parcsin, h]

lemma parcsin_fin_of_not_mem (x : ℝ) (h : 1 < |x|) : parcsin (.fin x) = .nan := by
  simp [parcsin, not_le.mpr h]

@[simp] lemma parcsin_nan : parcsin .nan = .nan := rfl

@[simp] lemma pabs_fin (x : ℝ) : pabs (.fin x) = .fin |x| := rfl

@[simp] lemma pabs_inf (s : Bool) : pabs (.inf s) = .inf true := rfl

@[simp] lemma pabs_nan : pabs .nan = .nan := rfl

@[simp] lemma prad2deg_fin (x : ℝ) :
    prad2deg (.fin x) = .fin (x * (180 / Real.pi)) := rfl

@[simp] lemma prad2deg_nan : prad2deg .nan = .nan := rfl

@[simp] lemma pdeg2rad_fin (x : ℝ) :
    pdeg2rad (.fin x) = .fin (x * (Real.pi / 180)) := rfl

@[simp] lemma pyNeZero_fin (x : ℝ) : pyNeZero (.fin x) ↔ x ≠ 0 := Iff.rfl

/-- The output of `pabs` is never a negative value. -/
lemma notNeg_pabs (v : PyFloat) : notNeg (pabs v) := by
  cases v with
  | fin x => exact abs_nonneg x
  | inf s => rfl
  | nan => trivial

end PyFloat

open PyFloat

/-- `np.deg2rad` on a plain Python float: degrees to radians. -/
def deg2rad (t : ℝ) : ℝ := t * (Real.pi / 180)

/-- `np.rad2deg` on a plain value: radians to degrees. -/
def rad2deg (t : ℝ) : ℝ := t * (180 / Real.pi)

/-- The phase difference of `calculate_intensity` at one grid point
`(x, y)`: with `k = 2 pi / wavelength` and the wave-vector components
`k * sin` / `k * cos` of the angles in radians,
`(k_Rx - k_Sx) * x + (k_Rz - k_Sz) * y` (line 29 of `program.py`). -/
def phase_diff (wavelength theta_R theta_S x y : ℝ) : ℝ :=
  let theta_R_rad := deg2rad theta_R
  let theta_S_rad := deg2rad theta_S
  let k := 2 * Real.pi / wavelength
  let k_Rx := k * Real.sin theta_R_rad
  let k_Rz := k * Real.cos theta_R_rad
  let k_Sx := k * Real.sin theta_S_rad
  let k_Sz := k * Real.cos theta_S_rad
  (k_Rx - k_Sx) * x + (k_Rz - k_Sz) * y

/-- `calculate_intensity` (lines 16-34).  The grids are 2D arrays of
reals; all NumPy operations are elementwise.  The scalar expression
`2 * np.pi / wavelength` divides two plain Python floats, so the call
raises `ZeroDivisionError` (modelled as `none`) exactly when
`wavelength = 0`; with a nonzero real wavelength every intermediate value
is a finite real. -/
def calculate_intensity (X Y : List (List ℝ)) (wavelength theta_R theta_S : ℝ) :
    Option (List (List ℝ)) :=
  if wavelength = 0 then none
  else some (List.zipWith (fun r s =>
    List.zipWith (fun x y =>
      (Real.cos (phase_diff wavelength theta_R theta_S x y) + 1) ^ 2) r s) X Y)

/-- Row-length profile of a 2D array: the shape used to compare arrays. -/
def shape2 (A : List (List ℝ)) : List ℕ := A.map List.length

lemma getq_zipWith {α β γ : Type} (f : α → β → γ) :
    ∀ (l1 : List α) (l2 : List β) (n : ℕ) (a : α) (b : β),
      l1.get? n = some a → l2.get? n = some b →
      (List.zipWith f l1 l2).get? n = some (f a b)
  | [], _, _, _, _, h1, _ => by simp at h1
  | _ :: _, [], _, _, _, _, h2 => by simp at h2
  | x :: l1, y :: l2, 0, a, b, h1, h2 => by
      simp only [List.get?_cons_zero, Option.some.injEq] at h1 h2
      simp [h1, h2]
  | x :: l1, y :: l2, n + 1, a, b, h1, h2 => by
      simp only [List.zipWith_cons_cons, List.get?_cons_succ] at *
      exact getq_zipWith f l1 l2 n a b h1 h2

lemma mem_zipWith_elim {α β γ : Type} (f : α → β → γ) :
    ∀ (l1 : List α) (l2 : List β) (c : γ), c ∈ List.zipWith f l1 l2 →
      ∃ a b, a ∈ l1 ∧ b ∈ l2 ∧ c = f a b
  | [], _, _, h => by simp at h
  | _ :: _, [], _, h => by simp at h
  | x :: l1, y :: l2, c, h => by
      simp only [List.zipWith_cons_cons, List.mem_cons] at h
      rcases h with h | h
      · exact ⟨x, y, by simp, by simp, h⟩
      · rcases mem_zipWith_elim f l1 l2 c h with ⟨a, b, ha, hb, rfl⟩
        exact ⟨a, b, by simp [ha], by simp [hb], rfl⟩

lemma shape2_zipWith (g : ℝ → ℝ → ℝ) :
    ∀ (X Y : List (List ℝ)), shape2 X = shape2 Y →
      shape2 (List.zipWith (fun r s => List.zipWith g r s) X Y) = shape2 X
  | [], _, _ => rfl
  | _ :: _, [], h => by simp [shape2] at h
  | x :: X, y :: Y, h => by
      simp only [shape2, List.map_cons, List.cons.injEq] at h
      have ih := shape2_zipWith g X Y h.2
      simp only [shape2, List.map_cons] at ih ⊢
      simp only [List.zipWith_cons_cons, List.map_cons, List.cons.injEq]
      exact ⟨by rw [List.length_zipWith, h.1, min_self], ih⟩

/-- Spatial frequency along y in air (line 44):
`(np.sin(theta_S_rad) - np.sin(theta_R_rad)) / wavelength`.  The
numerator is a `numpy.float64`, so the division follows IEEE semantics. -/
def freq_y_air (wavelength theta_R theta_S : ℝ) : PyFloat :=
  pdiv (.fin (Real.sin (deg2rad theta_S) - Real.sin (deg2rad theta_R))) (.fin wavelength)

/-- Spatial frequency along z in air (line 45). -/
def freq_z_air (wavelength theta_R theta_S : ℝ) : PyFloat :=
  pdiv (.fin (Real.cos (deg2rad theta_S) - Real.cos (deg2rad theta_R))) (.fin wavelength)

/-- Magnitude of the air spatial frequency (line 46):
`np.sqrt(freq_z_air ** 2 + freq_y_air ** 2)`. -/
def freq_air (wavelength theta_R theta_S : ℝ) : PyFloat :=
  psqrt (padd
    (pmul (freq_z_air wavelength theta_R theta_S) (freq_z_air wavelength theta_R theta_S))
    (pmul (freq_y_air wavelength theta_R theta_S) (freq_y_air wavelength theta_R theta_S)))

/-- Spatial period along y in air (line 49):
`1 / freq_y_air if freq_y_air != 0 else float(inf)`. -/
def d_y_air (wavelength theta_R theta_S : ℝ) : PyFloat :=
  if pyNeZero (freq_y_air wavelength theta_R theta_S)
  then pdiv (.fin 1) (freq_y_air wavelength theta_R theta_S)
  else .inf true

/-- Spatial period along z in air (line 50). -/
def d_z_air (wavelength theta_R theta_S : ℝ) : PyFloat :=
  if pyNeZero (freq_z_air wavelength theta_R theta_S)
  then pdiv (.fin 1) (freq_z_air wavelength theta_R theta_S)
  else .inf true

/-- Grating tilt angle in air (line 53), plain Python float arithmetic:
`(theta_S + theta_R) / 2`. -/
def psi_air (theta_R theta_S : ℝ) : ℝ := (theta_S + theta_R) / 2

/-- Signed grating period in air (line 55):
`d_y_air * np.cos(psi_air_rad)`. -/
def d_air (wavelength theta_R theta_S : ℝ) : PyFloat :=
  pmul (d_y_air wavelength theta_R theta_S)
    (.fin (Real.cos (deg2rad (psi_air theta_R theta_S))))

/-- Argument of the Bragg arcsine in air (line 59):
`wavelength / (2 * n_1 * d_air)`.  The denominator is a `numpy.float64`,
so the division is IEEE (no `ZeroDivisionError`). -/
def bragg_arg_air (wavelength theta_R theta_S n_1 : ℝ) : PyFloat :=
  pdiv (.fin wavelength) (pmul (.fin (2 * n_1)) (d_air wavelength theta_R theta_S))

/-- The diagnostic printed by the `except ValueError` handlers
(lines 61 and 87). -/
def bragg_error_message : String :=
  "Error: Невозможно вычислить угол Брегга для заданных параметров"

/-- The guarded call `np.arcsin(x)` inside the `try` blocks.  On a
`numpy.float64` scalar, an out-of-domain argument produces NaN together
with a `RuntimeWarning`; `ValueError` is never raised, so the call always
succeeds. -/
def np_arcsin_checked (x : PyFloat) : Except Unit PyFloat := Except.ok (parcsin x)

/-- The whole `try`/`except ValueError` block around
`np.rad2deg(np.arcsin(x))` (lines 58-62 and 84-88): the resulting Bragg
angle together with the list of messages printed by the handler. -/
def try_bragg (x : PyFloat) : PyFloat × List String :=
  match np_arcsin_checked x with
  | Except.ok v => (prad2deg v, [])
  | Except.error _ => (.nan, [bragg_error_message])

/-- Bragg angle in air (lines 58-62). -/
def theta_bragg_air (wavelength theta_R theta_S n_1 : ℝ) : PyFloat :=
  (try_bragg (bragg_arg_air wavelength theta_R theta_S n_1)).1

/-- Snell-refracted reference angle in radians (line 66):
`np.arcsin(n_1 / n_2 * np.sin(theta_R_rad))`.  The quotient `n_1 / n_2`
is plain Python float division; `calculate_grating_parameters` guards the
`n_2 = 0` case with `none`, so the real division here is only used with
`n_2` nonzero. -/
def psi_R_rad (theta_R n_1 n_2 : ℝ) : PyFloat :=
  parcsin (.fin (n_1 / n_2 * Real.sin (deg2rad theta_R)))

/-- Snell-refracted signal angle in radians (line 67). -/
def psi_S_rad (theta_S n_1 n_2 : ℝ) : PyFloat :=
  parcsin (.fin (n_1 / n_2 * Real.sin (deg2rad theta_S)))

/-- Spatial frequency along y in the medium (line 70):
`(np.sin(psi_S_rad) - np.sin(psi_R_rad)) * n_2 / wavelength`. -/
def freq_y_medium (wavelength theta_R theta_S n_1 n_2 : ℝ) : PyFloat :=
  pdiv (pmul (psub (psin (psi_S_rad theta_S n_1 n_2)) (psin (psi_R_rad theta_R n_1 n_2)))
      (.fin n_2))
    (.fin wavelength)

/-- Spatial frequency along z in the medium (line 71). -/
def freq_z_medium (wavelength theta_R theta_S n_1 n_2 : ℝ) : PyFloat :=
  pdiv (pmul (psub (pcos (psi_S_rad theta_S n_1 n_2)) (pcos (psi_R_rad theta_R n_1 n_2)))
      (.fin n_2))
    (.fin wavelength)

/-- Magnitude of the medium spatial frequency (line 72). -/
def freq_medium (wavelength theta_R theta_S n_1 n_2 : ℝ) : PyFloat :=
  psqrt (padd
    (pmul (freq_z_medium wavelength theta_R theta_S n_1 n_2)
      (freq_z_medium wavelength theta_R theta_S n_1 n_2))
    (pmul (freq_y_medium wavelength theta_R theta_S n_1 n_2)
      (freq_y_medium wavelength theta_R theta_S n_1 n_2)))

/-- Spatial period along y in the medium (line 75). -/
def d_y_medium (wavelength theta_R theta_S n_1 n_2 : ℝ) : PyFloat :=
  if pyNeZero (freq_y_medium wavelength theta_R theta_S n_1 n_2)
  then pdiv (.fin 1) (freq_y_medium wavelength theta_R theta_S n_1 n_2)
  else .inf true

/-- Spatial period along z in the medium (line 76). -/
def d_z_medium (wavelength theta_R theta_S n_1 n_2 : ℝ) : PyFloat :=
  if pyNeZero (freq_z_medium wavelength theta_R theta_S n_1 n_2)
  then pdiv (.fin 1) (freq_z_medium wavelength theta_R theta_S n_1 n_2)
  else .inf true

/-- Grating tilt angle in the medium (line 79):
`(np.degrees(psi_S_rad) + np.degrees(psi_R_rad)) / 2`, a `numpy.float64`
computation since the refracted angles may be NaN. -/
def psi_medium (theta_R theta_S n_1 n_2 : ℝ) : PyFloat :=
  pdiv (padd (prad2deg (psi_S_rad theta_S n_1 n_2)) (prad2deg (psi_R_rad theta_R n_1 n_2)))
    (.fin 2)

/-- Signed grating period in the medium (line 81):
`d_y_medium * np.cos(psi_medium_rad)`. -/
def d_medium (wavelength theta_R theta_S n_1 n_2 : ℝ) : PyFloat :=
  pmul (d_y_medium wavelength theta_R theta_S n_1 n_2)
    (pcos (pdeg2rad (psi_medium theta_R theta_S n_1 n_2)))

/-- Argument of the Bragg arcsine in the medium (line 85):
`wavelength / (2 * n_2 * d_medium)`. -/
def bragg_arg_medium (wavelength theta_R theta_S n_1 n_2 : ℝ) : PyFloat :=
  pdiv (.fin wavelength)
    (pmul (.fin (2 * n_2)) (d_medium wavelength theta_R theta_S n_1 n_2))

/-- Bragg angle in the medium (lines 84-88). -/
def theta_bragg_medium (wavelength theta_R theta_S n_1 n_2 : ℝ) : PyFloat :=
  (try_bragg (bragg_arg_medium wavelength theta_R theta_S n_1 n_2)).1

/-- One sub-record of the returned dictionary (lines 91-110). -/
structure SubParams where
  period : PyFloat
  period_y : PyFloat
  period_z : PyFloat
  frequency : PyFloat
  frequency_y : PyFloat
  frequency_z : PyFloat
  tilt_angle : PyFloat
  bragg_angle : PyFloat

/-- The returned dictionary of `calculate_grating_parameters`
(lines 90-111). -/
structure GratingParams where
  air : SubParams
  medium : SubParams

/-- The two media the result dictionary is keyed by. -/
inductive MediumKey where
  | air
  | medium

/-- Dictionary lookup by key. -/
def GratingParams.sub (p : GratingParams) : MediumKey → SubParams
  | .air => p.air
  | .medium => p.medium

/-- The Bragg arcsine argument of the branch selected by a key. -/
def bragg_arg (m : MediumKey) (wavelength theta_R theta_S n_1 n_2 : ℝ) : PyFloat :=
  match m with
  | .air => bragg_arg_air wavelength theta_R theta_S n_1
  | .medium => bragg_arg_medium wavelength theta_R theta_S n_1 n_2

/-- The record built by the `return` statement (lines 90-111): every
period and frequency field passes through `np.abs`, frequencies are
scaled by 1000 (per-mm units), tilt and Bragg angles are returned
unmodified. -/
def gpOf (wavelength theta_R theta_S n_1 n_2 : ℝ) : GratingParams :=
  { air :=
      { period := pabs (d_air wavelength theta_R theta_S)
        period_y := pabs (d_y_air wavelength theta_R theta_S)
        period_z := pabs (d_z_air wavelength theta_R theta_S)
        frequency := pabs (pmul (freq_air wavelength theta_R theta_S) (.fin 1000))
        frequency_y := pabs (pmul (freq_y_air wavelength theta_R theta_S) (.fin 1000))
        frequency_z := pabs (pmul (freq_z_air wavelength theta_R theta_S) (.fin 1000))
        tilt_angle := .fin (psi_air theta_R theta_S)
        bragg_angle := theta_bragg_air wavelength theta_R theta_S n_1 }
    medium :=
      { period := pabs (d_medium wavelength theta_R theta_S n_1 n_2)
        period_y := pabs (d_y_medium wavelength theta_R theta_S n_1 n_2)
        period_z := pabs (d_z_medium wavelength theta_R theta_S n_1 n_2)
        frequency := pabs (pmul (freq_medium wavelength theta_R theta_S n_1 n_2) (.fin 1000))
        frequency_y := pabs (pmul (freq_y_medium wavelength theta_R theta_S n_1 n_2) (.fin 1000))
        frequency_z := pabs (pmul (freq_z_medium wavelength theta_R theta_S n_1 n_2) (.fin 1000))
        tilt_angle := psi_medium theta_R theta_S n_1 n_2
        bragg_angle := theta_bragg_medium wavelength theta_R theta_S n_1 n_2 } }

/-- `calculate_grating_parameters` (lines 37-111).  The plain Python
float division `n_1 / n_2` at line 66 raises an uncaught
`ZeroDivisionError` when `n_2 = 0` (modelled as `none`); every other
operation involves a `numpy.float64` and follows IEEE semantics without
raising. -/
def calculate_grating_parameters (wavelength theta_R theta_S n_1 n_2 : ℝ) :
    Option GratingParams :=
  if n_2 = 0 then none else some (gpOf wavelength theta_R theta_S n_1 n_2)

/-- The messages printed during one call of
`calculate_grating_parameters`: the union of what the two
`except ValueError` handlers print. -/
def grating_messages (wavelength theta_R theta_S n_1 n_2 : ℝ) : List String :=
  (try_bragg (bragg_arg_air wavelength theta_R theta_S n_1)).2 ++
    (try_bragg (bragg_arg_medium wavelength theta_R theta_S n_1 n_2)).2

/-- The path `create_graphs` saves its figure to (line 151). -/
def create_graphs_save_path : String := "results_table.png"

/-- The path `create_table_image` saves its figure to (line 209). -/
def create_table_image_save_path : String := "results_table.png"

/-- The image files written by one run of the pipeline, in program order
(lines 232-234: table first, then graphs). -/
def pipeline_saved_files : List String :=
  [create_table_image_save_path, create_graphs_save_path]

lemma deg2rad_zero : deg2rad 0 = 0 := by
  rw [deg2rad]; ring

lemma deg2rad_thirty : deg2rad 30 = Real.pi / 6 := by
  rw [deg2rad]; ring

lemma deg2rad_neg_thirty : deg2rad (-30) = -(Real.pi / 6) := by
  rw [deg2rad]; ring

lemma deg2rad_ninety : deg2rad 90 = Real.pi / 2 := by
  rw [deg2rad]; ring

lemma deg2rad_neg_ninety : deg2rad (-90) = -(Real.pi / 2) := by
  rw [deg2rad]; ring

lemma sin_deg2rad_zero : Real.sin (deg2rad 0) = 0 := by
  rw [deg2rad_zero, Real.sin_zero]

lemma cos_deg2rad_zero : Real.cos (deg2rad 0) = 1 := by
  rw [deg2rad_zero, Real.cos_zero]

lemma sin_deg2rad_thirty : Real.sin (deg2rad 30) = 1 / 2 := by
  rw [deg2rad_thirty, Real.sin_pi_div_six]

lemma sin_deg2rad_neg_thirty : Real.sin (deg2rad (-30)) = -(1 / 2) := by
  rw [deg2rad_neg_thirty, Real.sin_neg, Real.sin_pi_div_six]

lemma cos_deg2rad_thirty : Real.cos (deg2rad 30) = Real.sqrt 3 / 2 := by
  rw [deg2rad_thirty, Real.cos_pi_div_six]

lemma cos_deg2rad_neg_thirty : Real.cos (deg2rad (-30)) = Real.sqrt 3 / 2 := by
  rw [deg2rad_neg_thirty, Real.cos_neg, Real.cos_pi_div_six]

lemma sin_deg2rad_ninety : Real.sin (deg2rad 90) = 1 := by
  rw [deg2rad_ninety, Real.sin_pi_div_two]

lemma sin_deg2rad_neg_ninety : Real.sin (deg2rad (-90)) = -1 := by
  rw [deg2rad_neg_ninety, Real.sin_neg, Real.sin_pi_div_two]

lemma arcsin_one_half : Real.arcsin (1 / 2) = Real.pi / 6 := by
  rw [← Real.sin_pi_div_six, Real.arcsin_sin]
  · linarith [Real.pi_pos]
  · linarith [Real.pi_pos]

lemma neg_pi_six_to_deg : -(Real.pi / 6) * (180 / Real.pi) = -30 := by
  have hpi := Real.pi_ne_zero
  field_simp
  ring

lemma pi_two_to_deg : Real.pi / 2 * (180 / Real.pi) = 90 := by
  have hpi := Real.pi_ne_zero
  field_simp
  ring

lemma try_bragg_eq (x : PyFloat) : try_bragg x = (parcsin x |>.prad2deg, []) := rfl

lemma theta_bragg_air_eq (w tR tS n1 : ℝ) :
    theta_bragg_air w tR tS n1 = prad2deg (parcsin (bragg_arg_air w tR tS n1)) := rfl

lemma theta_bragg_medium_eq (w tR tS n1 n2 : ℝ) :
    theta_bragg_medium w tR tS n1 n2 =
      prad2deg (parcsin (bragg_arg_medium w tR tS n1 n2)) := rfl

lemma sqrt_four : Real.sqrt 4 = 2 := by
  rw [show (4 : ℝ) = 2 ^ 2 by norm_num, Real.sqrt_sq (by norm_num : (0 : ℝ) ≤ 2)]

section EvalKnownInput

/-! Evaluation of the air branch at the known input
`wavelength = 0.5, theta_R = 30, theta_S = -30, n_1 = 1, n_2 = 1.5`. -/

lemma evalA_freq_y : freq_y_air 0.5 30 (-30) = .fin (-2) := by
  rw [freq_y_air, sin_deg2rad_neg_thirty, sin_deg2rad_thirty,
    pdiv_fin_fin _ _ (by norm_num : (0.5 : ℝ) ≠ 0)]
  norm_num

lemma evalA_freq_z : freq_z_air 0.5 30 (-30) = .fin 0 := by
  rw [freq_z_air, cos_deg2rad_neg_thirty, cos_deg2rad_thirty,
    pdiv_fin_fin _ _ (by norm_num : (0.5 : ℝ) ≠ 0)]
  norm_num

lemma evalA_freq : freq_air 0.5 30 (-30) = .fin 2 := by
  rw [freq_air, evalA_freq_y, evalA_freq_z, pmul_fin_fin, pmul_fin_fin, padd_fin_fin,
    psqrt_fin _ (by norm_num), show (0 : ℝ) * 0 + -2 * -2 = 4 by norm_num, sqrt_four]

lemma evalA_d_y : d_y_air 0.5 30 (-30) = .fin (-(1 / 2)) := by
  rw [d_y_air, evalA_freq_y,
    if_pos (show pyNeZero (PyFloat.fin (-2)) by
      rw [pyNeZero_fin]; norm_num),
    pdiv_fin_fin _ _ (by norm_num : (-2 : ℝ) ≠ 0)]
  norm_num

lemma evalA_d_z : d_z_air 0.5 30 (-30) = .inf true := by
  rw [d_z_air, evalA_freq_z,
    if_neg (show ¬pyNeZero (PyFloat.fin 0) by
      rw [pyNeZero_fin]; norm_num)]

lemma evalA_psi : psi_air 30 (-30) = 0 := by
  rw [psi_air]; norm_num

lemma evalA_d : d_air 0.5 30 (-30) = .fin (-(1 / 2)) := by
  rw [d_air, evalA_d_y, evalA_psi, cos_deg2rad_zero, pmul_fin_fin]
  norm_num

lemma evalA_arg : bragg_arg_air 0.5 30 (-30) 1 = .fin (-(1 / 2)) := by
  rw [bragg_arg_air, evalA_d, pmul_fin_fin,
    show (2 : ℝ) * 1 * -(1 / 2) = -1 by norm_num,
    pdiv_fin_fin _ _ (by norm_num : (-1 : ℝ) ≠ 0)]
  norm_num

lemma evalA_bragg : theta_bragg_air 0.5 30 (-30) 1 = .fin (-30) := by
  rw [theta_bragg_air_eq, evalA_arg,
    parcsin_fin_of_mem _ (abs_le.mpr ⟨by norm_num, by norm_num⟩),
    Real.arcsin_neg, arcsin_one_half, prad2deg_fin, neg_pi_six_to_deg]

end EvalKnownInput

section EvalDomainViolation

/-! Evaluation of the air branch at
`wavelength = 0.5, theta_R = -90, theta_S = 90, n_1 = 0.4, n_2 = 1.5`,
where the Bragg arcsine argument is 5/2, outside `[-1, 1]`. -/

lemma evalB_freq_y : freq_y_air 0.5 (-90) 90 = .fin 4 := by
  rw [freq_y_air, sin_deg2rad_ninety, sin_deg2rad_neg_ninety,
    pdiv_fin_fin _ _ (by norm_num : (0.5 : ℝ) ≠ 0)]
  norm_num

lemma evalB_d_y : d_y_air 0.5 (-90) 90 = .fin (1 / 4) := by
  rw [d_y_air, evalB_freq_y,
    if_pos (show pyNeZero (PyFloat.fin 4) by rw [pyNeZero_fin]; norm_num),
    pdiv_fin_fin _ _ (by norm_num : (4 : ℝ) ≠ 0)]

lemma evalB_psi : psi_air (-90) 90 = 0 := by
  rw [psi_air]; norm_num

lemma evalB_d : d_air 0.5 (-90) 90 = .fin (1 / 4) := by
  rw [d_air, evalB_d_y, evalB_psi, cos_deg2rad_zero, pmul_fin_fin]
  norm_num

lemma evalB_arg : bragg_arg_air 0.5 (-90) 90 0.4 = .fin (5 / 2) := by
  rw [bragg_arg_air, evalB_d, pmul_fin_fin,
    show (2 : ℝ) * 0.4 * (1 / 4) = 1 / 5 by norm_num,
    pdiv_fin_fin _ _ (by norm_num : (1 / 5 : ℝ) ≠ 0)]
  norm_num

end EvalDomainViolation

/-- C1 counterexample: at wavelength 0 the scalar Python division
`2 * np.pi / wavelength` raises `ZeroDivisionError`, so
`calculate_intensity` is not defined for every wavelength and returns no
array. -/
theorem c1_counterexample :
    calculate_intensity [[0]] [[0]] 0 0 0 = none ∧
    ¬∃ I, calculate_intensity [[0]] [[0]] 0 0 0 = some I := by
  constructor
  · rw [calculate_intensity, if_pos rfl]
  · rintro ⟨I, hI⟩
    rw [calculate_intensity, if_pos rfl] at hI
    exact Option.noConfusion hI

/-- C1 (amended): for grid arrays of equal shape and every NONZERO
wavelength and every pair of angles, `calculate_intensity` returns an
array of the same shape as the grids whose element at each position is
`(cos(phase_diff) + 1) ^ 2` for the phase difference
`(k_Rx - k_Sx) * x + (k_Rz - k_Sz) * y` at the corresponding grid
coordinates, and every element is nonnegative. -/
theorem c1_intensity_formula (X Y : List (List ℝ)) (w tR tS : ℝ)
    (hw : w ≠ 0) (hsh : shape2 X = shape2 Y) :
    ∃ I, calculate_intensity X Y w tR tS = some I ∧
      shape2 I = shape2 X ∧
      (∀ i j x y, (X.get? i).bind (fun r => r.get? j) = some x →
        (Y.get? i).bind (fun r => r.get? j) = some y →
        (I.get? i).bind (fun r => r.get? j) =
          some ((Real.cos (phase_diff w tR tS x y) + 1) ^ 2)) ∧
      ∀ r ∈ I, ∀ e ∈ r, 0 ≤ e := by
  refine ⟨List.zipWith (fun r s =>
      List.zipWith (fun x y => (Real.cos (phase_diff w tR tS x y) + 1) ^ 2) r s) X Y,
    ?_, shape2_zipWith _ X Y hsh, ?_, ?_⟩
  · rw [calculate_intensity, if_neg hw]
  · intro i j x y hx hy
    cases hXi : X.get? i with
    | none => rw [hXi] at hx; simp at hx
    | some r =>
        cases hYi : Y.get? i with
        | none => rw [hYi] at hy; simp at hy
        | some s =>
            rw [hXi, Option.some_bind] at hx
            rw [hYi, Option.some_bind] at hy
            rw [getq_zipWith _ X Y i r s hXi hYi, Option.some_bind]
            exact getq_zipWith _ r s j x y hx hy
  · intro r hr e he
    obtain ⟨rx, ry, _, _, rfl⟩ := mem_zipWith_elim _ X Y r hr
    obtain ⟨x, y, _, _, rfl⟩ := mem_zipWith_elim _ rx ry e he
    exact sq_nonneg _

/-- Witness for C1 at grids `[[0]]`, wavelength 1, angles 0 and 0. -/
theorem c1_intensity_formula_witness :
    ∃ I, calculate_intensity [[0]] [[0]] 1 0 0 = some I ∧
      shape2 I = shape2 [[0]] ∧
      (∀ i j x y,
        ((([[(0 : ℝ)]] : List (List ℝ)).get? i).bind (fun r => r.get? j) = some x) →
        ((([[(0 : ℝ)]] : List (List ℝ)).get? i).bind (fun r => r.get? j) = some y) →
        (I.get? i).bind (fun r => r.get? j) =
          some ((Real.cos (phase_diff 1 0 0 x y) + 1) ^ 2)) ∧
      ∀ r ∈ I, ∀ e ∈ r, 0 ≤ e :=
  c1_intensity_formula [[0]] [[0]] 1 0 0 one_ne_zero rfl

/-- C5 counterexample: at wavelength 0 (any equal angles) the call raises
`ZeroDivisionError` and returns no array, so neither the phase difference
nor the intensity is produced. -/
theorem c5_counterexample :
    calculate_intensity [[1]] [[1]] 0 30 30 = none ∧
    ¬∃ I, calculate_intensity [[1]] [[1]] 0 30 30 = some I := by
  constructor
  · rw [calculate_intensity, if_pos rfl]
  · rintro ⟨I, hI⟩
    rw [calculate_intensity, if_pos rfl] at hI
    exact Option.noConfusion hI

/-- C5 (amended): for every NONZERO wavelength and equal angles, the
phase difference vanishes at every grid point and every element of the
returned intensity array is 4. -/
theorem c5_equal_angles (X Y : List (List ℝ)) (w t : ℝ) (hw : w ≠ 0) :
    (∀ x y : ℝ, phase_diff w t t x y = 0) ∧
    ∃ I, calculate_intensity X Y w t t = some I ∧ ∀ r ∈ I, ∀ e ∈ r, e = 4 := by
  have hph : ∀ x y : ℝ, phase_diff w t t x y = 0 := by
    intro x y
    simp only [phase_diff]
    ring
  refine ⟨hph, List.zipWith (fun r s =>
      List.zipWith (fun x y => (Real.cos (phase_diff w t t x y) + 1) ^ 2) r s) X Y,
    ?_, ?_⟩
  · rw [calculate_intensity, if_neg hw]
  · intro r hr e he
    obtain ⟨rx, ry, _, _, rfl⟩ := mem_zipWith_elim _ X Y r hr
    obtain ⟨x, y, _, _, rfl⟩ := mem_zipWith_elim _ rx ry e he
    rw [hph x y, Real.cos_zero]
    norm_num

/-- Witness for C5 at grids `[[0]]`, wavelength 1, angle 0. -/
theorem c5_equal_angles_witness :
    (∀ x y : ℝ, phase_diff 1 0 0 x y = 0) ∧
    ∃ I, calculate_intensity [[0]] [[0]] 1 0 0 = some I ∧
      ∀ r ∈ I, ∀ e ∈ r, e = 4 :=
  c5_equal_angles [[0]] [[0]] 1 0 one_ne_zero

/-- C9: every element of an array returned by `calculate_intensity` lies
in the closed interval `[0, 4]`. -/
theorem c9_intensity_bounds (X Y : List (List ℝ)) (w tR tS : ℝ)
    (I : List (List ℝ)) (hI : calculate_intensity X Y w tR tS = some I) :
    ∀ r ∈ I, ∀ e ∈ r, 0 ≤ e ∧ e ≤ 4 := by
  rw [calculate_intensity] at hI
  by_cases hw : w = 0
  · rw [if_pos hw] at hI
    exact Option.noConfusion hI
  · rw [if_neg hw, Option.some.injEq] at hI
    subst hI
    intro r hr e he
    obtain ⟨rx, ry, _, _, rfl⟩ := mem_zipWith_elim _ X Y r hr
    obtain ⟨x, y, _, _, rfl⟩ := mem_zipWith_elim _ rx ry e he
    refine ⟨sq_nonneg _, ?_⟩
    have h1 := Real.cos_le_one (phase_diff w tR tS x y)
    have h2 := Real.neg_one_le_cos (phase_diff w tR tS x y)
    nlinarith

/-- Witness for C9: the sole element of
`calculate_intensity [[0]] [[0]] 1 0 0` is 4, inside `[0, 4]`. -/
theorem c9_intensity_bounds_witness : (0 : ℝ) ≤ 4 ∧ (4 : ℝ) ≤ 4 := by
  have hI : calculate_intensity [[0]] [[0]] 1 0 0 = some [[4]] := by
    rw [calculate_intensity, if_neg one_ne_zero]
    norm_num [phase_diff, deg2rad, Real.sin_zero, Real.cos_zero]
  exact c9_intensity_bounds [[0]] [[0]] 1 0 0 [[4]] hI [4] (by simp) 4 (by simp)

/-- C4: `create_graphs` (line 151) and `create_table_image` (line 209)
save to the SAME path `results_table.png`, so one run of the pipeline
produces a single image file, the table image being overwritten by the
plots, contradicting the claimed two distinct paths. -/
theorem c4_same_save_path :
    create_graphs_save_path = create_table_image_save_path ∧
    pipeline_saved_files = List.replicate 2 create_table_image_save_path :=
  ⟨rfl, rfl⟩

lemma freq_y_air_fin (w tR tS : ℝ) (hw : w ≠ 0) :
    freq_y_air w tR tS =
      .fin ((Real.sin (deg2rad tS) - Real.sin (deg2rad tR)) / w) := by
  rw [freq_y_air, pdiv_fin_fin _ _ hw]

lemma freq_z_air_fin (w tR tS : ℝ) (hw : w ≠ 0) :
    freq_z_air w tR tS =
      .fin ((Real.cos (deg2rad tS) - Real.cos (deg2rad tR)) / w) := by
  rw [freq_z_air, pdiv_fin_fin _ _ hw]

lemma psi_R_rad_fin (tR n1 n2 : ℝ) (h : |n1 / n2 * Real.sin (deg2rad tR)| ≤ 1) :
    psi_R_rad tR n1 n2 = .fin (Real.arcsin (n1 / n2 * Real.sin (deg2rad tR))) := by
  rw [psi_R_rad, parcsin_fin_of_mem _ h]

lemma psi_S_rad_fin (tS n1 n2 : ℝ) (h : |n1 / n2 * Real.sin (deg2rad tS)| ≤ 1) :
    psi_S_rad tS n1 n2 = .fin (Real.arcsin (n1 / n2 * Real.sin (deg2rad tS))) := by
  rw [psi_S_rad, parcsin_fin_of_mem _ h]

lemma freq_y_medium_fin (w tR tS n1 n2 : ℝ) (hw : w ≠ 0)
    (hR : |n1 / n2 * Real.sin (deg2rad tR)| ≤ 1)
    (hS : |n1 / n2 * Real.sin (deg2rad tS)| ≤ 1) :
    freq_y_medium w tR tS n1 n2 =
      .fin ((Real.sin (Real.arcsin (n1 / n2 * Real.sin (deg2rad tS))) -
        Real.sin (Real.arcsin (n1 / n2 * Real.sin (deg2rad tR)))) * n2 / w) := by
  rw [freq_y_medium, psi_S_rad_fin _ _ _ hS, psi_R_rad_fin _ _ _ hR, psin_fin, psin_fin,
    psub_fin_fin, pmul_fin_fin, pdiv_fin_fin _ _ hw]

lemma freq_z_medium_fin (w tR tS n1 n2 : ℝ) (hw : w ≠ 0)
    (hR : |n1 / n2 * Real.sin (deg2rad tR)| ≤ 1)
    (hS : |n1 / n2 * Real.sin (deg2rad tS)| ≤ 1) :
    freq_z_medium w tR tS n1 n2 =
      .fin ((Real.cos (Real.arcsin (n1 / n2 * Real.sin (deg2rad tS))) -
        Real.cos (Real.arcsin (n1 / n2 * Real.sin (deg2rad tR)))) * n2 / w) := by
  rw [freq_z_medium, psi_S_rad_fin _ _ _ hS, psi_R_rad_fin _ _ _ hR, pcos_fin, pcos_fin,
    psub_fin_fin, pmul_fin_fin, pdiv_fin_fin _ _ hw]

/-- The reciprocity relation claimed between an axis period field and the
matching axis frequency field: period (microns) times frequency (lines
per millimeter) is 1000, except that a zero frequency makes the period
infinite. -/
def recipPF (P F : PyFloat) : Prop :=
  (F = .fin 0 → P = .inf true) ∧ (F ≠ .fin 0 → pmul P F = .fin 1000)

/-- When an axis frequency is a finite real, the period and frequency
fields built from it by the `return` statement are reciprocal in the
sense of `recipPF`. -/
lemma recip_of_fin (u : PyFloat) (f : ℝ) (hu : u = .fin f) :
    recipPF (pabs (if pyNeZero u then pdiv (.fin 1) u else .inf true))
      (pabs (pmul u (.fin 1000))) := by
  subst hu
  by_cases hf : f = 0
  · subst hf
    constructor
    · intro _
      rw [if_neg (show ¬pyNeZero (PyFloat.fin (0 : ℝ)) by
        rw [pyNeZero_fin]; simp)]
      rfl
    · intro hF
      exfalso
      apply hF
      rw [pmul_fin_fin, pabs_fin]
      norm_num
  · constructor
    · intro hF
      exfalso
      rw [pmul_fin_fin, pabs_fin] at hF
      have habs : |f * 1000| = 0 := by
        simpa using hF
      have : f * 1000 = 0 := abs_eq_zero.mp habs
      exact hf (by linarith [this])
    · intro _
      rw [if_pos (show pyNeZero (PyFloat.fin f) from hf), pdiv_fin_fin _ _ hf,
        pabs_fin, pmul_fin_fin, pabs_fin, pmul_fin_fin, ← abs_mul]
      have hv : 1 / f * (f * 1000) = 1000 := by
        rw [div_mul_eq_mul_div, one_mul, mul_comm f 1000, mul_div_assoc,
          div_self hf, mul_one]
      rw [hv]
      norm_num

/-- C2: whenever the Bragg arcsine argument `wavelength / (2 * n * d)` of
a sub-record (air or medium) is a finite value of absolute value greater
than 1, the bragg_angle field returned by `calculate_grating_parameters`
for that sub-record is NaN. -/
theorem c2_bragg_nan (w tR tS n1 n2 : ℝ) (m : MediumKey) (gp : GratingParams)
    (a : ℝ)
    (hgp : calculate_grating_parameters w tR tS n1 n2 = some gp)
    (ha : bragg_arg m w tR tS n1 n2 = .fin a)
    (h1 : 1 < |a|) :
    (gp.sub m).bragg_angle = PyFloat.nan := by
  have hn : n2 ≠ 0 := by
    intro h
    rw [calculate_grating_parameters, if_pos h] at hgp
    exact Option.noConfusion hgp
  rw [calculate_grating_parameters, if_neg hn, Option.some.injEq] at hgp
  subst hgp
  cases m with
  | air =>
      have ha2 : bragg_arg_air w tR tS n1 = .fin a := ha
      show theta_bragg_air w tR tS n1 = PyFloat.nan
      rw [theta_bragg_air_eq, ha2, parcsin_fin_of_not_mem a h1, prad2deg_nan]
  | medium =>
      have ha2 : bragg_arg_medium w tR tS n1 n2 = .fin a := ha
      show theta_bragg_medium w tR tS n1 n2 = PyFloat.nan
      rw [theta_bragg_medium_eq, ha2, parcsin_fin_of_not_mem a h1, prad2deg_nan]

/-- Witness for C2: at wavelength 0.5, angles -90 and 90, n_1 = 0.4,
n_2 = 1.5 the air Bragg argument is 5/2, outside `[-1, 1]`, and the air
bragg_angle is NaN. -/
theorem c2_bragg_nan_witness :
    ((gpOf 0.5 (-90) 90 0.4 1.5).sub MediumKey.air).bragg_angle = PyFloat.nan ∧
      (1 : ℝ) < |(5 / 2 : ℝ)| :=
  ⟨c2_bragg_nan 0.5 (-90) 90 0.4 1.5 MediumKey.air (gpOf 0.5 (-90) 90 0.4 1.5) (5 / 2)
      (by rw [calculate_grating_parameters, if_neg (by norm_num : (1.5 : ℝ) ≠ 0)])
      evalB_arg
      (by rw [show |(5 / 2 : ℝ)| = 5 / 2 from abs_of_pos (by norm_num)]; norm_num),
    by rw [show |(5 / 2 : ℝ)| = 5 / 2 from abs_of_pos (by norm_num)]; norm_num⟩

/-- C3: the `except ValueError` handlers are dead code.  No call of
`calculate_grating_parameters` ever prints a message, and at a concrete
input whose air Bragg argument 5/2 lies outside `[-1, 1]` the function
still returns the full record with NaN Bragg angle; the NaN comes from
`np.arcsin` itself, which returns NaN with a `RuntimeWarning` instead of
raising `ValueError`. -/
theorem c3_dead_handler :
    (∀ w tR tS n1 n2 : ℝ, grating_messages w tR tS n1 n2 = []) ∧
    calculate_grating_parameters 0.5 (-90) 90 0.4 1.5 =
      some (gpOf 0.5 (-90) 90 0.4 1.5) ∧
    bragg_arg_air 0.5 (-90) 90 0.4 = .fin (5 / 2) ∧
    (1 : ℝ) < |(5 / 2 : ℝ)| ∧
    (gpOf 0.5 (-90) 90 0.4 1.5).air.bragg_angle = PyFloat.nan := by
  refine ⟨fun _ _ _ _ _ => rfl, ?_, evalB_arg, ?_, ?_⟩
  · rw [calculate_grating_parameters, if_neg (by norm_num : (1.5 : ℝ) ≠ 0)]
  · rw [show |(5 / 2 : ℝ)| = 5 / 2 from abs_of_pos (by norm_num)]; norm_num
  · show theta_bragg_air 0.5 (-90) 90 0.4 = PyFloat.nan
    rw [theta_bragg_air_eq, evalB_arg, parcsin_fin_of_not_mem _
      (by rw [show |(5 / 2 : ℝ)| = 5 / 2 from abs_of_pos (by norm_num)]; norm_num),
      prad2deg_nan]

/-- C6 counterexample: at wavelength 0 (angles 0 and 90, n_1 = 1,
n_2 = 1.5) the air y frequency is infinite, the y period is 0, their
product is NaN rather than 1000, and the frequency is not zero, so the
claimed reciprocity fails as stated. -/
theorem c6_counterexample :
    calculate_grating_parameters 0 0 90 1 1.5 = some (gpOf 0 0 90 1 1.5) ∧
    (gpOf 0 0 90 1 1.5).air.frequency_y = .inf true ∧
    (gpOf 0 0 90 1 1.5).air.period_y = .fin 0 ∧
    pmul ((gpOf 0 0 90 1 1.5).air.period_y) ((gpOf 0 0 90 1 1.5).air.frequency_y) =
      PyFloat.nan := by
  have hfy : freq_y_air 0 0 90 = .inf true := by
    rw [freq_y_air, sin_deg2rad_ninety, sin_deg2rad_zero,
      show (1 : ℝ) - 0 = 1 by norm_num, pdiv_fin_zero_pos 1 one_pos]
  have hdy : d_y_air 0 0 90 = .fin 0 := by
    rw [d_y_air, if_pos (show pyNeZero (freq_y_air 0 0 90) by rw [hfy]; trivial), hfy,
      pdiv_fin_inf]
  refine ⟨?_, ?_, ?_, ?_⟩
  · rw [calculate_grating_parameters, if_neg (by norm_num : (1.5 : ℝ) ≠ 0)]
  · show pabs (pmul (freq_y_air 0 0 90) (.fin 1000)) = .inf true
    rw [hfy, show pmul (PyFloat.inf true) (.fin 1000) = .inf true by
      rw [pmul]; rw [if_pos (by norm_num : (0 : ℝ) < 1000)], pabs_inf]
  · show pabs (d_y_air 0 0 90) = .fin 0
    rw [hdy, pabs_fin, abs_zero]
  · show pmul (pabs (d_y_air 0 0 90)) (pabs (pmul (freq_y_air 0 0 90) (.fin 1000))) =
      PyFloat.nan
    rw [hdy, hfy, pabs_fin, abs_zero,
      show pmul (PyFloat.inf true) (.fin 1000) = .inf true by
        rw [pmul]; rw [if_pos (by norm_num : (0 : ℝ) < 1000)], pabs_inf]
    rw [pmul]
    rw [if_neg (by norm_num : ¬(0 : ℝ) < 0), if_neg (by norm_num : ¬(0 : ℝ) < 0)]

/-- C6 (amended): for every input with NONZERO wavelength for which the
function returns (n_2 nonzero) and, for the medium sub-record, Snell
arcsine arguments inside `[-1, 1]`, the axis period and frequency fields
of both sub-records are reciprocal: period times frequency is 1000
(microns times lines-per-mm), except that a zero axis frequency makes the
period field infinite. -/
theorem c6_reciprocal (w tR tS n1 n2 : ℝ) (gp : GratingParams)
    (hgp : calculate_grating_parameters w tR tS n1 n2 = some gp)
    (hw : w ≠ 0)
    (hR : |n1 / n2 * Real.sin (deg2rad tR)| ≤ 1)
    (hS : |n1 / n2 * Real.sin (deg2rad tS)| ≤ 1) :
    recipPF gp.air.period_y gp.air.frequency_y ∧
    recipPF gp.air.period_z gp.air.frequency_z ∧
    recipPF gp.medium.period_y gp.medium.frequency_y ∧
    recipPF gp.medium.period_z gp.medium.frequency_z := by
  have hn : n2 ≠ 0 := by
    intro h
    rw [calculate_grating_parameters, if_pos h] at hgp
    exact Option.noConfusion hgp
  rw [calculate_grating_parameters, if_neg hn, Option.some.injEq] at hgp
  subst hgp
  refine ⟨?_, ?_, ?_, ?_⟩
  · show recipPF (pabs (d_y_air w tR tS)) (pabs (pmul (freq_y_air w tR tS) (.fin 1000)))
    rw [d_y_air]
    exact recip_of_fin _ _ (freq_y_air_fin w tR tS hw)
  · show recipPF (pabs (d_z_air w tR tS)) (pabs (pmul (freq_z_air w tR tS) (.fin 1000)))
    rw [d_z_air]
    exact recip_of_fin _ _ (freq_z_air_fin w tR tS hw)
  · show recipPF (pabs (d_y_medium w tR tS n1 n2))
      (pabs (pmul (freq_y_medium w tR tS n1 n2) (.fin 1000)))
    rw [d_y_medium]
    exact recip_of_fin _ _ (freq_y_medium_fin w tR tS n1 n2 hw hR hS)
  · show recipPF (pabs (d_z_medium w tR tS n1 n2))
      (pabs (pmul (freq_z_medium w tR tS n1 n2) (.fin 1000)))
    rw [d_z_medium]
    exact recip_of_fin _ _ (freq_z_medium_fin w tR tS n1 n2 hw hR hS)

/-- Witness for C6 at wavelength 0.5, angles 30 and -30, n_1 = 1,
n_2 = 1.5. -/
theorem c6_reciprocal_witness :
    recipPF (gpOf 0.5 30 (-30) 1 1.5).air.period_y
      (gpOf 0.5 30 (-30) 1 1.5).air.frequency_y ∧
    recipPF (gpOf 0.5 30 (-30) 1 1.5).air.period_z
      (gpOf 0.5 30 (-30) 1 1.5).air.frequency_z ∧
    recipPF (gpOf 0.5 30 (-30) 1 1.5).medium.period_y
      (gpOf 0.5 30 (-30) 1 1.5).medium.frequency_y ∧
    recipPF (gpOf 0.5 30 (-30) 1 1.5).medium.period_z
      (gpOf 0.5 30 (-30) 1 1.5).medium.frequency_z :=
  c6_reciprocal 0.5 30 (-30) 1 1.5 (gpOf 0.5 30 (-30) 1 1.5)
    (by rw [calculate_grating_parameters, if_neg (by norm_num : (1.5 : ℝ) ≠ 0)])
    (by norm_num)
    (by rw [sin_deg2rad_thirty]; exact abs_le.mpr ⟨by norm_num, by norm_num⟩)
    (by rw [sin_deg2rad_neg_thirty]; exact abs_le.mpr ⟨by norm_num, by norm_num⟩)

/-- C7: the air tilt_angle is the bisector `(theta_S + theta_R) / 2`, and
(whenever the Snell-refracted angles exist, i.e. both arcsine arguments
lie in `[-1, 1]`) the medium tilt_angle is the mean of the two refracted
angles `arcsin(n_1 / n_2 * sin theta)` expressed in degrees. -/
theorem c7_tilt_angles (w tR tS n1 n2 : ℝ) (gp : GratingParams)
    (hgp : calculate_grating_parameters w tR tS n1 n2 = some gp)
    (hR : |n1 / n2 * Real.sin (deg2rad tR)| ≤ 1)
    (hS : |n1 / n2 * Real.sin (deg2rad tS)| ≤ 1) :
    gp.air.tilt_angle = .fin ((tS + tR) / 2) ∧
    gp.medium.tilt_angle =
      .fin ((rad2deg (Real.arcsin (n1 / n2 * Real.sin (deg2rad tS))) +
        rad2deg (Real.arcsin (n1 / n2 * Real.sin (deg2rad tR)))) / 2) := by
  have hn : n2 ≠ 0 := by
    intro h
    rw [calculate_grating_parameters, if_pos h] at hgp
    exact Option.noConfusion hgp
  rw [calculate_grating_parameters, if_neg hn, Option.some.injEq] at hgp
  subst hgp
  constructor
  · rfl
  · show psi_medium tR tS n1 n2 = _
    rw [psi_medium, psi_S_rad_fin _ _ _ hS, psi_R_rad_fin _ _ _ hR, prad2deg_fin,
      prad2deg_fin, padd_fin_fin, pdiv_fin_fin _ _ (by norm_num : (2 : ℝ) ≠ 0)]
    rfl

/-- Witness for C7 at wavelength 1, angles 0 and 90, n_1 = n_2 = 1: both
tilt angles are 45 degrees. -/
theorem c7_tilt_angles_witness :
    (gpOf 1 0 90 1 1).air.tilt_angle = .fin 45 ∧
    (gpOf 1 0 90 1 1).medium.tilt_angle = .fin 45 := by
  have h := c7_tilt_angles 1 0 90 1 1 (gpOf 1 0 90 1 1)
    (by rw [calculate_grating_parameters, if_neg (by norm_num : (1 : ℝ) ≠ 0)])
    (by rw [sin_deg2rad_zero]; norm_num)
    (by rw [sin_deg2rad_ninety]; norm_num)
  constructor
  · rw [h.1]
    norm_num [PyFloat.fin.injEq]
  · rw [h.2]
    rw [show (1 : ℝ) / 1 * Real.sin (deg2rad 90) = 1 by
        rw [sin_deg2rad_ninety]; norm_num,
      show (1 : ℝ) / 1 * Real.sin (deg2rad 0) = 0 by
        rw [sin_deg2rad_zero]; norm_num,
      Real.arcsin_one, Real.arcsin_zero, rad2deg, rad2deg, pi_two_to_deg]
    norm_num [PyFloat.fin.injEq]

/-- C8: at the known input wavelength 0.5, angles 30 and -30, n_1 = 1,
n_2 = 1.5, `calculate_grating_parameters` is deterministic (a pure
function of its arguments) and the air sub-record matches direct formula
evaluation: period_y = period = 0.5 microns, frequency_y = frequency =
2000 lines/mm, tilt_angle = 0 degrees and period_z infinite. -/
theorem c8_known_input :
    calculate_grating_parameters 0.5 30 (-30) 1 1.5 =
      calculate_grating_parameters 0.5 30 (-30) 1 1.5 ∧
    ∃ gp, calculate_grating_parameters 0.5 30 (-30) 1 1.5 = some gp ∧
      gp.air.period_y = .fin 0.5 ∧ gp.air.period = .fin 0.5 ∧
      gp.air.frequency_y = .fin 2000 ∧ gp.air.frequency = .fin 2000 ∧
      gp.air.tilt_angle = .fin 0 ∧ gp.air.period_z = .inf true := by
  have habs : |(-(1 / 2) : ℝ)| = 1 / 2 := by
    rw [abs_neg, abs_of_pos (by norm_num : (0 : ℝ) < 1 / 2)]
  refine ⟨rfl, gpOf 0.5 30 (-30) 1 1.5, ?_, ?_, ?_, ?_, ?_, ?_, ?_⟩
  · rw [calculate_grating_parameters, if_neg (by norm_num : (1.5 : ℝ) ≠ 0)]
  · show pabs (d_y_air 0.5 30 (-30)) = .fin 0.5
    rw [evalA_d_y, pabs_fin, habs]
    norm_num [PyFloat.fin.injEq]
  · show pabs (d_air 0.5 30 (-30)) = .fin 0.5
    rw [evalA_d, pabs_fin, habs]
    norm_num [PyFloat.fin.injEq]
  · show pabs (pmul (freq_y_air 0.5 30 (-30)) (.fin 1000)) = .fin 2000
    rw [evalA_freq_y, pmul_fin_fin, show (-2 : ℝ) * 1000 = -2000 by norm_num,
      pabs_fin, abs_neg, abs_of_pos (by norm_num : (0 : ℝ) < 2000)]
  · show pabs (pmul (freq_air 0.5 30 (-30)) (.fin 1000)) = .fin 2000
    rw [evalA_freq, pmul_fin_fin, show (2 : ℝ) * 1000 = 2000 by norm_num,
      pabs_fin, abs_of_pos (by norm_num : (0 : ℝ) < 2000)]
  · show PyFloat.fin (psi_air 30 (-30)) = .fin 0
    rw [evalA_psi]
  · show pabs (d_z_air 0.5 30 (-30)) = .inf true
    rw [evalA_d_z, pabs_inf]

/-- C10: every period and frequency field of both sub-records passes
through `np.abs` and is never negative (a nonnegative finite value or
`+inf`; NaN is neither negative nor positive), while tilt_angle and
bragg_angle are returned unmodified and can indeed be negative: at
angles -30, -30 the air tilt is -30 degrees and at the known input of C8
the air Bragg angle is -30 degrees. -/
theorem c10_sign_invariants :
    (∀ w tR tS n1 n2 : ℝ, ∀ gp : GratingParams,
      calculate_grating_parameters w tR tS n1 n2 = some gp →
      (notNeg gp.air.period ∧ notNeg gp.air.period_y ∧ notNeg gp.air.period_z ∧
        notNeg gp.air.frequency ∧ notNeg gp.air.frequency_y ∧
        notNeg gp.air.frequency_z ∧
        notNeg gp.medium.period ∧ notNeg gp.medium.period_y ∧
        notNeg gp.medium.period_z ∧ notNeg gp.medium.frequency ∧
        notNeg gp.medium.frequency_y ∧ notNeg gp.medium.frequency_z) ∧
      gp.air.tilt_angle = .fin (psi_air tR tS) ∧
      gp.medium.tilt_angle = psi_medium tR tS n1 n2 ∧
      gp.air.bragg_angle = theta_bragg_air w tR tS n1 ∧
      gp.medium.bragg_angle = theta_bragg_medium w tR tS n1 n2) ∧
    (∃ gp, calculate_grating_parameters 1 (-30) (-30) 1 1 = some gp ∧
      gp.air.tilt_angle = .fin (-30)) ∧
    (∃ gp, calculate_grating_parameters 0.5 30 (-30) 1 1.5 = some gp ∧
      gp.air.bragg_angle = .fin (-30)) := by
  refine ⟨?_, ?_, ?_⟩
  · intro w tR tS n1 n2 gp hgp
    have hn : n2 ≠ 0 := by
      intro h
      rw [calculate_grating_parameters, if_pos h] at hgp
      exact Option.noConfusion hgp
    rw [calculate_grating_parameters, if_neg hn, Option.some.injEq] at hgp
    subst hgp
    exact ⟨⟨notNeg_pabs _, notNeg_pabs _, notNeg_pabs _, notNeg_pabs _, notNeg_pabs _,
      notNeg_pabs _, notNeg_pabs _, notNeg_pabs _, notNeg_pabs _, notNeg_pabs _,
      notNeg_pabs _, notNeg_pabs _⟩, rfl, rfl, rfl, rfl⟩
  · refine ⟨gpOf 1 (-30) (-30) 1 1, ?_, ?_⟩
    · rw [calculate_grating_parameters, if_neg (by norm_num : (1 : ℝ) ≠ 0)]
    · show PyFloat.fin (psi_air (-30) (-30)) = .fin (-30)
      rw [psi_air]
      norm_num [PyFloat.fin.injEq]
  · refine ⟨gpOf 0.5 30 (-30) 1 1.5, ?_, evalA_bragg⟩
    rw [calculate_grating_parameters, if_neg (by norm_num : (1.5 : ℝ) ≠ 0)]

/-- Witness for C10: the nonnegativity part applied at wavelength 1,
angles 0, indices 1. -/
theorem c10_sign_invariants_witness :
    notNeg (gpOf 1 0 0 1 1).air.period ∧
      notNeg (gpOf 1 0 0 1 1).medium.frequency_z := by
  have hh := (c10_sign_invariants.1 1 0 0 1 1 (gpOf 1 0 0 1 1)
    (by rw [calculate_grating_parameters, if_neg (by norm_num : (1 : ℝ) ≠ 0)])).1
  exact ⟨hh.1, hh.2.2.2.2.2.2.2.2.2.2.2⟩
